import Mathlib

/-!
Verification of the mutual-fund portfolio extraction pipeline
(`Pranay_Qonfido_DataAnalyticsIntern_Assignment.py`) and its data validator
(`validate_data.py`), as a shallow embedding in Lean.

Modelling conventions:
* A spreadsheet cell is either missing (pandas `NaN`) or a value rendered as
  the text Python's `str` would produce for it (`Cell`).
* A raw sheet is a list of rows of cells (`Grid`); a keyed row (after the
  sheet is re-read with a located header) is an association list from
  normalized column name to cell.
* Python `float` values are modelled as exact rationals (`ℚ`); `float(value)`
  parsing is modelled by `parseDecimal?` for plain decimal literals.  No
  verified property depends on the numeric value produced by a parse, only on
  whether a field is populated, which is parse-independent.
* Exceptions are modelled with `Except`: a sheet whose read raises is an
  `Except.error`, matching the `try/except` at the sheet boundary.
-/

namespace MF

/-- A spreadsheet cell: missing (pandas `NaN`) or a textual value. -/
inductive Cell where
  | empty
  | val (s : String)
  deriving DecidableEq

/-- One sheet's raw contents: an untyped grid of cells. -/
abbrev Grid := List (List Cell)

/-- Python's `str(cell)`: `NaN` renders as `"nan"`. -/
def cellStr (c : Cell) : String :=
  match c with
  | Cell.empty => "nan"
  | Cell.val s => s

/-- ASCII lower-casing of one character.  (Python's `str.lower` and Lean core's
`Char.toLower` agree with this on ASCII, which covers every keyword the source
matches against; core's string functions are avoided throughout because their
position-based recursion does not reduce in the kernel.) -/
def charLower (c : Char) : Char :=
  if 'A' ≤ c && c ≤ 'Z' then Char.ofNat (c.toNat + 32) else c

/-- Models Python's `str.lower()`. -/
def strLower (s : String) : String :=
  String.mk (s.data.map charLower)

/-- ASCII whitespace test used by trimming. -/
def isSpaceChar (c : Char) : Bool :=
  c == ' ' || c == '\t' || c == '\n' || c == '\r'

/-- Models Python's `str.strip()`: remove leading and trailing whitespace. -/
def strTrim (s : String) : String :=
  String.mk (((s.data.dropWhile isSpaceChar).reverse.dropWhile isSpaceChar).reverse)

/-- Substring test on character lists: does `p` occur contiguously in the list? -/
def listInfix (p : List Char) : List Char → Bool
  | [] => p.isEmpty
  | c :: t => p.isPrefixOf (c :: t) || listInfix p t

/-- Python's `pat in s` substring test. -/
def strContains (s pat : String) : Bool :=
  listInfix pat.data s.data

/-- Drop everything through the first occurrence of `p`; `none` if `p` never occurs. -/
def dropThroughFirst (p : List Char) : List Char → Option (List Char)
  | [] => if p.isEmpty then some [] else none
  | c :: t =>
    if p.isPrefixOf (c :: t) then some (List.drop p.length (c :: t))
    else dropThroughFirst p t

/-- Ordered-occurrence test: each pattern occurs, in order, left to right.
Models a regex of the form `p1.*p2.*p3` under `re.search`. -/
def containsInOrder (s : List Char) : List (List Char) → Bool
  | [] => true
  | p :: ps =>
    match dropThroughFirst p s with
    | some rest => containsInOrder rest ps
    | none => false

/-- Models `re.search(r'(december|31.*12.*2025|2025.*12.*31)', cell_value, re.IGNORECASE)`
from `find_reporting_date`. -/
def dateTokenMatch (s : String) : Bool :=
  let t := (strLower s).data
  containsInOrder t ["december".data] ||
  containsInOrder t ["31".data, "12".data, "2025".data] ||
  containsInOrder t ["2025".data, "12".data, "31".data]

/-- Models `find_reporting_date`: scan the first 10 rows, all columns, for a date-like
token; on a match return the standardized date, otherwise the default.  (Both
branches of the source return the literal `"2025-12-31"`.) -/
def find_reporting_date (grid : Grid) : String :=
  match (grid.take 10).find? (fun row => row.any (fun c => dateTokenMatch (cellStr c))) with
  | some _ => "2025-12-31"
  | none => "2025-12-31"

/-- The header keyword list of `find_header_row`. -/
def headerKeywords : List String :=
  ["name", "isin", "quantity", "rating", "industry", "instrument"]

/-- Models `' '.join([str(cell).lower() for cell in row if pd.notna(cell)])`. -/
def rowText (row : List Cell) : String :=
  String.intercalate " "
    (row.filterMap (fun c =>
      match c with
      | Cell.empty => none
      | Cell.val s => some (strLower s)))

/-- Number of distinct header keywords occurring in the row's joined text. -/
def headerKeywordCount (row : List Cell) : Nat :=
  (headerKeywords.filter (fun k => strContains (rowText row) k)).length

/-- The fueled scan of `find_header_row`: `fuel` rows remain to inspect,
`idx` is the absolute index of the current row. -/
def findHeaderRowAux : Nat → Nat → Grid → Option Nat
  | _, _, [] => none
  | 0, _, _ => none
  | fuel + 1, idx, r :: rs =>
    if 2 ≤ headerKeywordCount r then some idx
    else findHeaderRowAux fuel (idx + 1) rs

/-- Models `find_header_row`: first row among the first 20 whose joined non-empty cell
text contains at least 2 of the header keywords; `None` if there is none. -/
def find_header_row (grid : Grid) : Option Nat :=
  findHeaderRowAux 20 0 grid

/-- Lower-cased text of a cell, `""` when the cell is missing
(`str(row.iloc[k]).lower() if pd.notna(row.iloc[k]) else ""`). -/
def cellStrLower (c : Cell) : String :=
  match c with
  | Cell.empty => ""
  | Cell.val s => strLower s

/-- Models `f"{first_cell} {second_cell}"`: the case-folded first two cells joined by
a space, as used by `is_section_header` and `classify_instrument_type`. -/
def firstTwoCombined (row : List Cell) : String :=
  cellStrLower (row.getD 0 Cell.empty) ++ " " ++ cellStrLower (row.getD 1 Cell.empty)

/-- The section banner keyword list of `is_section_header`. -/
def sectionKeywords : List String :=
  ["equity", "debt instruments", "government securities", "corporate bonds",
   "money market", "net current", "listed", "unlisted", "awaiting listing",
   "privately placed", "reverse repo", "treps", "treasury", "certificate of deposit",
   "commercial paper"]

/-- Is `c` an ASCII uppercase letter? -/
def isUpperAlpha (c : Char) : Bool := 'A' ≤ c && c ≤ 'Z'

/-- Is `c` an ASCII digit? -/
def isDigitChar (c : Char) : Bool := '0' ≤ c && c ≤ '9'

/-- Uppercase letter or digit. -/
def isUpperAlnum (c : Char) : Bool := isUpperAlpha c || isDigitChar c

/-- Models `re.match(r'^[A-Z]{2}[A-Z0-9]{9}[0-9]$', s)`: 2 uppercase letters,
9 uppercase alphanumerics, 1 digit — exactly 12 characters. -/
def matchesIsinPattern (s : String) : Bool :=
  let cs := s.data
  cs.length == 12 &&
  (cs.take 2).all isUpperAlpha &&
  ((cs.drop 2).take 9).all isUpperAlnum &&
  (cs.drop 11).all isDigitChar

/-- Does any non-missing cell of the row match the strict ISIN pattern? -/
def rowHasIsin (row : List Cell) : Bool :=
  row.any (fun c =>
    match c with
    | Cell.empty => false
    | Cell.val s => matchesIsinPattern s)

/-- Does the first-two-cell combined text contain a section banner keyword? -/
def hasSectionKeyword (row : List Cell) : Bool :=
  sectionKeywords.any (fun k => strContains (firstTwoCombined row) k)

/-- Models `is_section_header`: banner keyword in the first two cells and no ISIN-shaped
cell anywhere in the row. -/
def is_section_header (row : List Cell) : Bool :=
  if hasSectionKeyword row then !(rowHasIsin row) else false

/-- Equity keywords of `classify_instrument_type`. -/
def equityKeywords : List String := ["equity", "stock"]

/-- Debt keywords of `classify_instrument_type`. -/
def debtKeywords : List String :=
  ["debt instruments", "government securities", "bond", "debenture"]

/-- Money-market keywords of `classify_instrument_type`. -/
def moneyMarketKeywords : List String :=
  ["money market", "cash", "liquid", "reverse repo", "treps", "treasury bill",
   "certificate of deposit", "commercial paper"]

/-- Does the row's first-two-cell text contain an equity keyword? -/
def equityMatch (row : List Cell) : Bool :=
  equityKeywords.any (fun k => strContains (firstTwoCombined row) k)

/-- Does the row's first-two-cell text contain a debt keyword? -/
def debtMatch (row : List Cell) : Bool :=
  debtKeywords.any (fun k => strContains (firstTwoCombined row) k)

/-- Does the row's first-two-cell text contain a money-market keyword? -/
def moneyMarketMatch (row : List Cell) : Bool :=
  moneyMarketKeywords.any (fun k => strContains (firstTwoCombined row) k)

/-- Models `classify_instrument_type`: ordered keyword dispatch on the first two cells;
returns the type label strings used by the source. -/
def classify_instrument_type (row : List Cell) : String :=
  if equityMatch row then "Equity"
  else if debtMatch row then "Debt"
  else if moneyMarketMatch row then "Money Market"
  else "Other"

/-- Digits-only parse of a nonempty character list into a natural number. -/
def parseNatDigits (cs : List Char) : Option Nat :=
  if !cs.isEmpty && cs.all Char.isDigit then
    some (cs.foldl (fun a c => a * 10 + (c.toNat - 48)) 0)
  else none

/-- Split a character list at every `'.'`. -/
def splitOnDot : List Char → List (List Char)
  | [] => [[]]
  | c :: t =>
    if c == '.' then [] :: splitOnDot t
    else
      match splitOnDot t with
      | [] => [[c]]
      | h :: r => (c :: h) :: r

/-- Python `float(value)` modelled for plain decimal literals (optional sign,
digits, optional fractional part); other inputs parse to `none`.  No verified
property depends on the value a successful parse produces. -/
def parseDecimal? (s : String) : Option ℚ :=
  let t := (strTrim s).data
  let sgn : ℚ := if t.take 1 = ['-'] then -1 else 1
  let body := if t.take 1 = ['-'] ∨ t.take 1 = ['+'] then t.drop 1 else t
  match splitOnDot body with
  | [w] => (parseNatDigits w).map (fun n => sgn * (n : ℚ))
  | [w, f] =>
    match parseNatDigits w, parseNatDigits f with
    | some n, some m => some (sgn * ((n : ℚ) + (m : ℚ) / (10 ^ f.length)))
    | _, _ => none
  | _ => none

/-- The canonical holding record built by `extract_holding_from_row`.  A field
of value `none` models a dictionary key that was never set; `some none` on a
numeric field models a key set to Python `None` after a failed `float` parse. -/
structure Holding where
  amc_name : String
  scheme_name : String
  instrument_type : String
  reporting_date : String
  instrument_name : Option String := none
  isin : Option String := none
  industry_rating : Option String := none
  quantity : Option (Option ℚ) := none
  market_value_lakhs : Option (Option ℚ) := none
  percentage_of_portfolio : Option (Option ℚ) := none
  deriving DecidableEq

/-- Column names matched by the instrument-name rule. -/
def nameColKeywords : List String := ["name of the instrument", "name", "security"]

/-- Column names matched by the outer market-value condition. -/
def marketColKeywords : List String := ["market", "fair value", "value"]

/-- Does the normalized column name satisfy the outer market-value condition? -/
def marketOuterMatch (col : String) : Bool :=
  marketColKeywords.any (fun k => strContains col k)

/-- Does the normalized column name contain the `rs`/`lakhs`/`amount` conjunct? -/
def marketUnitMatch (col : String) : Bool :=
  strContains col "rs" || strContains col "lakhs" || strContains col "amount"

/-- One iteration of the column loop in `extract_holding_from_row`: dispatch a
single `(column, value)` pair onto the record under construction.  A missing
value (`pd.isna`) leaves the record unchanged. -/
def applyColumn (h : Holding) (colName : String) (value : Cell) : Holding :=
  match value with
  | Cell.empty => h
  | Cell.val v =>
    let col := strLower colName
    if nameColKeywords.any (fun k => strContains col k) then
      if !(strContains col "isin") then { h with instrument_name := some (strTrim v) } else h
    else if strContains col "isin" then { h with isin := some (strTrim v) }
    else if strContains col "industry" || strContains col "rating" then
      { h with industry_rating := some (strTrim v) }
    else if strContains col "quantity" then { h with quantity := some (parseDecimal? v) }
    else if marketOuterMatch col then
      if marketUnitMatch col then { h with market_value_lakhs := some (parseDecimal? v) }
      else h
    else if strContains col "%" || strContains col "net assets" then
      { h with percentage_of_portfolio := some (parseDecimal? v) }
    else h

/-- The noise keyword list filtering out subtotal/total/header rows. -/
def noiseKeywords : List String :=
  ["total", "sub-total", "subtotal", "net current", "grand total",
   "net receivables", "net payables", "listed / awaiting",
   "privately placed", "unlisted", "benchmark", "risk-o-meter"]

/-- The post-construction filter of `extract_holding_from_row`: keep the record
only when an instrument name was set, is non-empty (Python truthiness), carries
no noise keyword, and its stripped length exceeds 3. -/
def holdingFilter (h : Holding) : Option Holding :=
  match h.instrument_name with
  | none => none
  | some nm =>
    if nm ≠ "" then
      if !(noiseKeywords.any (fun k => strContains (strLower nm) k)) then
        if 3 < (strTrim nm).length then some h else none
      else none
    else none

/-- Models `extract_holding_from_row`: reject an all-missing row, fold the column
dispatch over the keyed row in order, then apply the post-construction filter. -/
def extract_holding_from_row (row : List (String × Cell)) (scheme_name : String)
    (instrument_type : String) (reporting_date : String) (amc_name : String) :
    Option Holding :=
  if row.all (fun p => p.2 == Cell.empty) then none
  else
    holdingFilter
      (row.foldl (fun acc p => applyColumn acc p.1 p.2)
        { amc_name := amc_name, scheme_name := scheme_name,
          instrument_type := instrument_type, reporting_date := reporting_date })

/-- Column names produced by re-reading a sheet with a located header row:
header cells become column names (pandas names a missing header cell
`Unnamed: k`), then `.str.strip().str.lower()` normalizes them. -/
def headerColNames (headerCells : List Cell) : List String :=
  (headerCells.enum).map (fun p =>
    match p.2 with
    | Cell.val s => strLower (strTrim s)
    | Cell.empty => ("unnamed: " ++ toString p.1))

/-- Re-materialize the grid using row `headerIdx` as column names and the rows
after it as keyed data rows (models `pd.read_excel(..., header=header_row_idx)`
followed by column-name cleaning). -/
def rematerialize (grid : Grid) (headerIdx : Nat) : List (List (String × Cell)) :=
  let cols := headerColNames (grid.getD headerIdx [])
  (grid.drop (headerIdx + 1)).map (fun r => cols.zip r)

/-- The row-streaming loop of `extract_holdings_from_sheet`: thread the current
instrument type (initially `"Unknown"`) through the keyed rows; a section
banner updates it and emits nothing, any other row goes to the extractor. -/
def processRows (scheme_name reporting_date amc_name : String) :
    List (List (String × Cell)) → String → List Holding
  | [], _ => []
  | r :: rs, cur =>
    if is_section_header (r.map Prod.snd) then
      processRows scheme_name reporting_date amc_name rs
        (classify_instrument_type (r.map Prod.snd))
    else
      match extract_holding_from_row r scheme_name cur reporting_date amc_name with
      | some h => h :: processRows scheme_name reporting_date amc_name rs cur
      | none => processRows scheme_name reporting_date amc_name rs cur

/-- Models `extract_holdings_from_sheet`: any exception (modelled as an errored sheet
read) yields zero records; otherwise locate the header (none found → zero
records), re-materialize, and stream the rows. -/
def extract_holdings_from_sheet (sheet : Except String Grid)
    (sheet_name amc_name : String) : List Holding :=
  match sheet with
  | Except.error _ => []
  | Except.ok grid =>
    let reporting_date := find_reporting_date grid
    match find_header_row grid with
    | none => []
    | some i => processRows sheet_name reporting_date amc_name (rematerialize grid i) "Unknown"

/-- Sheet-name keywords excluding non-scheme sheets from consolidation. -/
def sheetSkipKeywords : List String := ["index", "summary", "contents", "note", "disclaimer"]

/-- Is the sheet kept (its case-folded name contains no skip keyword)? -/
def keepSheet (name : String) : Bool :=
  !(sheetSkipKeywords.any (fun k => strContains (strLower name) k))

/-- Models `parse_excel_portfolios`: filter out index/summary sheets, process each
remaining sheet in order, and concatenate all extracted holdings. -/
def parse_excel_portfolios (amc_name : String)
    (sheets : List (String × Except String Grid)) : List Holding :=
  (sheets.filter (fun p => keepSheet p.1)).foldl
    (fun acc p => acc ++ extract_holdings_from_sheet p.2 p.1 amc_name) []

/-! ### Validator (`validate_data.py`) -/

/-- A value in the consolidated CSV as pandas reads it: missing (`NaN`),
a string, or a numeric value (floats modelled as exact rationals). -/
inductive CsvVal where
  | na
  | str (s : String)
  | num (q : ℚ)
  deriving DecidableEq

/-- A consolidated dataset as loaded by `pd.read_csv`: a list of column names
and rows keyed by them. -/
structure Dataset where
  cols : List String
  rows : List (List (String × CsvVal))
  deriving DecidableEq

/-- Value of column `c` in row `r` (`NaN` when absent from the row). -/
def getVal (r : List (String × CsvVal)) (c : String) : CsvVal :=
  match r.find? (fun p => p.1 == c) with
  | some p => p.2
  | none => CsvVal.na

/-- The required column list of `check_required_fields`. -/
def required_fields : List String :=
  ["amc_name", "scheme_name", "instrument_name", "instrument_type", "reporting_date"]

/-- Models `check_required_fields`: one issue naming the missing required columns,
none when all five are present. -/
def check_required_fields (d : Dataset) : List String :=
  let missing := required_fields.filter (fun f => !(d.cols.contains f))
  if missing.isEmpty then [] else [s!"Missing required columns: {missing}"]

/-- Is this CSV value a non-null ISIN that fails the strict pattern? -/
def invalidIsinVal (v : CsvVal) : Bool :=
  match v with
  | CsvVal.na => false
  | CsvVal.str s => !(matchesIsinPattern s)
  | CsvVal.num _ => true

/-- Models `check_isin_format`: skipped entirely when the `isin` column is absent;
otherwise one issue counting the non-null ISINs failing the pattern. -/
def check_isin_format (d : Dataset) : List String :=
  if !(d.cols.contains "isin") then []
  else
    let n := (d.rows.filter (fun r => invalidIsinVal (getVal r "isin"))).length
    if n > 0 then [s!"Found {n} invalid ISIN codes"] else []

/-- Is this value a number strictly outside `[0, 100]`?  (pandas comparisons on
`NaN` are false, so missing values are never flagged.) -/
def pctOutOfRange (v : CsvVal) : Bool :=
  match v with
  | CsvVal.num q => decide (q < 0 ∨ 100 < q)
  | _ => false

/-- Is this value a strictly negative number? -/
def negativeVal (v : CsvVal) : Bool :=
  match v with
  | CsvVal.num q => decide (q < 0)
  | _ => false

/-- The percentage-range half of `check_numeric_ranges`: skipped when the
column is absent. -/
def checkPctRange (d : Dataset) : List String :=
  if !(d.cols.contains "percentage_of_portfolio") then []
  else
    let n := (d.rows.filter (fun r => pctOutOfRange (getVal r "percentage_of_portfolio"))).length
    if n > 0 then [s!"Found {n} holdings with invalid percentage"] else []

/-- The negative-market-value half of `check_numeric_ranges`: skipped when the
column is absent. -/
def checkMarketValue (d : Dataset) : List String :=
  if !(d.cols.contains "market_value_lakhs") then []
  else
    let n := (d.rows.filter (fun r => negativeVal (getVal r "market_value_lakhs"))).length
    if n > 0 then [s!"Found {n} holdings with negative value"] else []

/-- Models `check_numeric_ranges`: both halves, percentage range first. -/
def check_numeric_ranges (d : Dataset) : List String :=
  checkPctRange d ++ checkMarketValue d

/-- The group keys of `groupby('scheme_name')`: distinct non-null values of the
`scheme_name` column (pandas drops `NaN` keys). -/
def schemeKeys (d : Dataset) : List CsvVal :=
  (d.rows.filterMap (fun r =>
    match getVal r "scheme_name" with
    | CsvVal.na => none
    | v => some v)).dedup

/-- Sum of `percentage_of_portfolio` over the rows of one scheme group
(pandas `sum` skips `NaN` and non-numeric entries contribute nothing). -/
def schemeSum (d : Dataset) (k : CsvVal) : ℚ :=
  (d.rows.filterMap (fun r =>
    if getVal r "scheme_name" = k then
      match getVal r "percentage_of_portfolio" with
      | CsvVal.num q => some q
      | _ => none
    else none)).sum

/-- The schemes whose percentage sum lies strictly outside `[95, 105]`. -/
def outlierSchemes (d : Dataset) : List CsvVal :=
  (schemeKeys d).filter (fun k => decide (schemeSum d k < 95 ∨ 105 < schemeSum d k))

/-- Models `check_portfolio_percentages`: skipped when the percentage column is
absent; otherwise one issue counting all outlier schemes. -/
def check_portfolio_percentages (d : Dataset) : List String :=
  if !(d.cols.contains "percentage_of_portfolio") then []
  else
    let n := (outlierSchemes d).length
    if n > 0 then [s!"Found {n} schemes with unusual portfolio sum"] else []

/-- The `(scheme_name, instrument_name)` key of a row, as used by
`df.duplicated(subset=..., keep=False)`. -/
def dupKey (r : List (String × CsvVal)) : CsvVal × CsvVal :=
  (getVal r "scheme_name", getVal r "instrument_name")

/-- Rows whose `(scheme_name, instrument_name)` key occurs more than once. -/
def duplicateRows (d : Dataset) : List (List (String × CsvVal)) :=
  d.rows.filter (fun r => 1 < (d.rows.filter (fun r2 => dupKey r2 == dupKey r)).length)

/-- Models `check_duplicates`: one issue counting every member of a duplicated
`(scheme_name, instrument_name)` group. -/
def check_duplicates (d : Dataset) : List String :=
  let n := (duplicateRows d).length
  if n > 0 then [s!"Found {n} duplicate holdings"] else []

/-- Models `run_all_checks`: the issue list accumulated, in order, by the five
issue-producing checks (`check_missing_values` only prints). -/
def run_all_checks (d : Dataset) : List String :=
  check_required_fields d ++ check_isin_format d ++ check_numeric_ranges d ++
  check_portfolio_percentages d ++ check_duplicates d

/-- The final verdict of `print_summary`. -/
inductive Verdict where
  | PASSED
  | NEEDS_REVIEW
  deriving DecidableEq

/-- Models `print_summary`: success exactly when the issue list is empty. -/
def print_summary (issues : List String) : Verdict :=
  if issues.isEmpty then Verdict.PASSED else Verdict.NEEDS_REVIEW

/-- The verdict of a full validation run over a dataset. -/
def validation_verdict (d : Dataset) : Verdict :=
  print_summary (run_all_checks d)

/-! ### Concrete inputs used by counterexamples and witnesses -/

/-- A keyed data row whose second column name contains `value` and `net assets`
but none of `rs`/`lakhs`/`amount`. -/
def valueNetAssetsRow : List (String × Cell) :=
  [("name of the instrument", Cell.val "Reliance Industries Ltd"),
   ("value (% to net assets)", Cell.val "4.2")]

/-- The same row with a percentage column name not matching the outer
market-value condition. -/
def plainPercentRow : List (String × Cell) :=
  [("name of the instrument", Cell.val "Reliance Industries Ltd"),
   ("% to net assets", Cell.val "4.2")]

/-- A small sheet with a recognizable header row and one holding row. -/
def demoGrid : Grid :=
  [[Cell.val "Name of the Instrument", Cell.val "ISIN"],
   [Cell.val "Reliance Industries Ltd", Cell.val "INE002A01018"]]

/-- The holding extracted from `demoGrid` under sheet name `SchemeA`. -/
def demoHolding : Holding :=
  { amc_name := "AMC", scheme_name := "SchemeA", instrument_type := "Unknown",
    reporting_date := "2025-12-31",
    instrument_name := some "Reliance Industries Ltd",
    isin := some "INE002A01018" }

/-- A one-sheet workbook built from `demoGrid`. -/
def demoWorkbook : List (String × Except String Grid) :=
  [("SchemeA", Except.ok demoGrid)]

/-- A grid none of whose rows contains two header keywords. -/
def noHeaderGrid : Grid :=
  [[Cell.val "just some text"], [Cell.val "more text"]]

/-- A record of scheme `A` holding 99.8 percent of the portfolio. -/
def sumRowA : List (String × CsvVal) :=
  [("scheme_name", CsvVal.str "A"), ("percentage_of_portfolio", CsvVal.num 99.8)]

/-- A record of scheme `B` holding 110 percent of the portfolio. -/
def sumRowB : List (String × CsvVal) :=
  [("scheme_name", CsvVal.str "B"), ("percentage_of_portfolio", CsvVal.num 110.0)]

/-- A two-scheme dataset whose percentage sums are 99.8 and 110. -/
def sumExampleDS : Dataset :=
  { cols := ["scheme_name", "percentage_of_portfolio"],
    rows := [sumRowA, sumRowB] }

/-- A dataset carrying exactly the five required columns and no rows. -/
def fiveColDS : Dataset :=
  { cols := required_fields, rows := [] }

/-! ### Theorems -/

/-- C6: the reporting-date detector is a constant function: whether or not a
date-like token is found in the first 10 rows, `find_reporting_date` returns
the identical ISO string `"2025-12-31"` for every grid. -/
theorem find_reporting_date_constant (grid : Grid) :
    find_reporting_date grid = "2025-12-31" := by
  unfold find_reporting_date
  cases (grid.take 10).find? (fun row => row.any (fun c => dateTokenMatch (cellStr c))) <;> rfl

/-- C4: `classify_instrument_type` is total: every row yields exactly one of
the four labels `Equity`, `Debt`, `Money Market`, `Other`, never `Unknown`,
with ordered precedence — equity keywords first, then debt, then money market,
and a row matching no category keyword yields `Other`. -/
theorem classify_instrument_type_total (row : List Cell) :
    (classify_instrument_type row = "Equity" ∨ classify_instrument_type row = "Debt" ∨
     classify_instrument_type row = "Money Market" ∨ classify_instrument_type row = "Other") ∧
    classify_instrument_type row ≠ "Unknown" ∧
    (classify_instrument_type row = "Equity" ↔ equityMatch row = true) ∧
    (classify_instrument_type row = "Debt" ↔
      equityMatch row = false ∧ debtMatch row = true) ∧
    (classify_instrument_type row = "Money Market" ↔
      equityMatch row = false ∧ debtMatch row = false ∧ moneyMarketMatch row = true) ∧
    (classify_instrument_type row = "Other" ↔
      equityMatch row = false ∧ debtMatch row = false ∧ moneyMarketMatch row = false) := by
  unfold classify_instrument_type
  cases he : equityMatch row <;> cases hd : debtMatch row <;>
    cases hm : moneyMarketMatch row <;> simp

/-- C9: the validator is deterministic and idempotent — two runs over the same
dataset produce the identical issue list and verdict — and the verdict is
`PASSED` exactly when the issue list is empty, otherwise `NEEDS_REVIEW`. -/
theorem validator_deterministic (d : Dataset) :
    run_all_checks d = run_all_checks d ∧
    validation_verdict d = validation_verdict d ∧
    (validation_verdict d = Verdict.PASSED ↔ run_all_checks d = []) ∧
    (validation_verdict d = Verdict.NEEDS_REVIEW ↔ run_all_checks d ≠ []) := by
  refine ⟨rfl, rfl, ?_, ?_⟩ <;>
    unfold validation_verdict print_summary <;>
    by_cases h : run_all_checks d = [] <;>
    simp [h, List.isEmpty_iff]

/-- C3: `is_section_header` returns true iff the case-folded concatenation of
the row's first two cells contains a banner keyword and no cell anywhere in the
row matches the strict ISIN pattern; consequently inserting any ISIN-pattern
string anywhere into a banner row flips the result from true to false. -/
theorem is_section_header_spec (row : List Cell) :
    (is_section_header row = true ↔
      hasSectionKeyword row = true ∧ rowHasIsin row = false) ∧
    (is_section_header row = true →
      ∀ n : Nat, n ≤ row.length → ∀ s : String, matchesIsinPattern s = true →
        is_section_header (row.insertIdx n (Cell.val s)) = false) := by
  constructor
  · unfold is_section_header
    cases h : hasSectionKeyword row <;> simp [h]
  · intro _ n hn s hs
    have hmem : Cell.val s ∈ row.insertIdx n (Cell.val s) :=
      (List.mem_insertIdx hn).mpr (Or.inl rfl)
    have hisin : rowHasIsin (row.insertIdx n (Cell.val s)) = true := by
      unfold rowHasIsin
      rw [List.any_eq_true]
      exact ⟨Cell.val s, hmem, hs⟩
    unfold is_section_header
    cases h : hasSectionKeyword (row.insertIdx n (Cell.val s)) <;> simp [h, hisin]

/-- Witness for C3: the banner row `["Equity & Equity related", _]` is a
section header, and inserting the ISIN `INE002A01018` makes it one no longer. -/
theorem is_section_header_spec_witness :
    is_section_header [Cell.val "Equity & Equity related", Cell.empty] = true ∧
    is_section_header ([Cell.val "Equity & Equity related", Cell.empty].insertIdx 2
      (Cell.val "INE002A01018")) = false := by
  constructor
  · decide
  · exact (is_section_header_spec [Cell.val "Equity & Equity related", Cell.empty]).2
      (by decide) 2 (by decide) "INE002A01018" (by decide)

/-- Helper: the percentage sum of scheme `A` in `sumExampleDS` is 99.8. -/
theorem schemeSum_example_A : schemeSum sumExampleDS (CsvVal.str "A") = 99.8 := by
  have g1 : getVal sumRowA "scheme_name" = CsvVal.str "A" := rfl
  have g2 : getVal sumRowB "scheme_name" = CsvVal.str "B" := rfl
  have p1 : getVal sumRowA "percentage_of_portfolio" = CsvVal.num 99.8 := rfl
  simp [schemeSum, sumExampleDS, g1, g2, p1]

/-- Helper: the percentage sum of scheme `B` in `sumExampleDS` is 110. -/
theorem schemeSum_example_B : schemeSum sumExampleDS (CsvVal.str "B") = 110 := by
  have g1 : getVal sumRowA "scheme_name" = CsvVal.str "A" := rfl
  have g2 : getVal sumRowB "scheme_name" = CsvVal.str "B" := rfl
  have p2 : getVal sumRowB "percentage_of_portfolio" = CsvVal.num 110.0 := rfl
  simp [schemeSum, sumExampleDS, g1, g2, p2]
  norm_num

/-- Helper: the outlier list of `sumExampleDS` is exactly scheme `B`. -/
theorem outlierSchemes_example : outlierSchemes sumExampleDS = [CsvVal.str "B"] := by
  have hk : schemeKeys sumExampleDS = [CsvVal.str "A", CsvVal.str "B"] := by
    simp only [schemeKeys, sumExampleDS, List.filterMap_cons, List.filterMap_nil]
    rfl
  unfold outlierSchemes
  rw [hk]
  norm_num [List.filter_cons, schemeSum_example_A, schemeSum_example_B]

/-- C8: with the percentage column present, a scheme is an outlier iff its
percentage sum over the dataset is strictly below 95 or strictly above 105,
and the check appends an issue iff some scheme is an outlier (one issue
covering all outliers). -/
theorem check_portfolio_percentages_spec (d : Dataset)
    (hc : "percentage_of_portfolio" ∈ d.cols) :
    (∀ k, k ∈ outlierSchemes d ↔
      k ∈ schemeKeys d ∧ (schemeSum d k < 95 ∨ 105 < schemeSum d k)) ∧
    (check_portfolio_percentages d = [] ↔ outlierSchemes d = []) ∧
    (check_portfolio_percentages d ≠ [] ↔
      ∃ k ∈ schemeKeys d, schemeSum d k < 95 ∨ 105 < schemeSum d k) := by
  have hmem : ∀ k, k ∈ outlierSchemes d ↔
      k ∈ schemeKeys d ∧ (schemeSum d k < 95 ∨ 105 < schemeSum d k) := by
    intro k
    unfold outlierSchemes
    rw [List.mem_filter]
    simp
  have hcol : d.cols.contains "percentage_of_portfolio" = true := List.elem_iff.mpr hc
  have hiff : check_portfolio_percentages d = [] ↔ outlierSchemes d = [] := by
    unfold check_portfolio_percentages
    rw [hcol]
    by_cases ho : outlierSchemes d = [] <;> simp [ho, List.length_pos]
  refine ⟨hmem, hiff, ?_⟩
  rw [Ne, hiff]
  constructor
  · intro hne
    obtain ⟨k, hk⟩ := List.exists_mem_of_ne_nil _ hne
    exact ⟨k, ((hmem k).mp hk).1, ((hmem k).mp hk).2⟩
  · rintro ⟨k, hks, hout⟩ hnil
    exact (List.not_mem_nil k) (hnil ▸ (hmem k).mpr ⟨hks, hout⟩)

/-- Witness for C8: in the two-scheme dataset with sums 99.8 and 110, scheme
`B` is an outlier by the characterization, scheme `A` is not, and the issue
list is nonempty. -/
theorem check_portfolio_percentages_spec_witness :
    (CsvVal.str "B" ∈ outlierSchemes sumExampleDS ↔
      CsvVal.str "B" ∈ schemeKeys sumExampleDS ∧
      (schemeSum sumExampleDS (CsvVal.str "B") < 95 ∨
       105 < schemeSum sumExampleDS (CsvVal.str "B"))) ∧
    outlierSchemes sumExampleDS = [CsvVal.str "B"] ∧
    schemeSum sumExampleDS (CsvVal.str "A") = 99.8 ∧
    check_portfolio_percentages sumExampleDS ≠ [] := by
  have hspec := check_portfolio_percentages_spec sumExampleDS (by decide)
  refine ⟨hspec.1 _, outlierSchemes_example, schemeSum_example_A, ?_⟩
  rw [Ne, hspec.2.1, outlierSchemes_example]
  simp

/-- C10: absence of an optional column is never a validation issue — without
`isin` the ISIN check adds nothing; without `percentage_of_portfolio` the
percentage-range and portfolio-sum checks add nothing; without
`market_value_lakhs` the negative-value check adds nothing; only the five
required columns can trigger a missing-column issue, and a dataset with just
those five columns can be verdict `PASSED`. -/
theorem optional_columns_no_issue (d : Dataset) :
    ("isin" ∉ d.cols → check_isin_format d = []) ∧
    ("percentage_of_portfolio" ∉ d.cols →
      checkPctRange d = [] ∧ check_portfolio_percentages d = []) ∧
    ("market_value_lakhs" ∉ d.cols → checkMarketValue d = []) ∧
    ((∀ f ∈ required_fields, f ∈ d.cols) → check_required_fields d = []) ∧
    validation_verdict fiveColDS = Verdict.PASSED := by
  refine ⟨?_, ?_, ?_, ?_, by decide⟩
  · intro h
    unfold check_isin_format
    simp [h]
  · intro h
    constructor
    · unfold checkPctRange
      simp [h]
    · unfold check_portfolio_percentages
      simp [h]
  · intro h
    unfold checkMarketValue
    simp [h]
  · intro h
    have hfil : required_fields.filter (fun f => !(d.cols.contains f)) = [] := by
      rw [List.filter_eq_nil_iff]
      intro f hf
      simpa using h f hf
    unfold check_required_fields
    rw [hfil]
    rfl

/-- Witness for C10: a dataset with only the five required columns triggers no
issue from the skipped checks and gets verdict `PASSED`. -/
theorem optional_columns_no_issue_witness :
    check_isin_format fiveColDS = [] ∧
    checkPctRange fiveColDS = [] ∧ check_portfolio_percentages fiveColDS = [] ∧
    checkMarketValue fiveColDS = [] ∧
    check_required_fields fiveColDS = [] ∧
    validation_verdict fiveColDS = Verdict.PASSED := by
  have h := optional_columns_no_issue fiveColDS
  exact ⟨h.1 (by decide), (h.2.1 (by decide)).1, (h.2.1 (by decide)).2,
    h.2.2.1 (by decide), h.2.2.2.1 (by decide), h.2.2.2.2⟩

/-- Counterexample to C5 as stated: on a row whose second column is named
`value (% to net assets)` — containing `value` and `net assets` but none of
`rs`/`lakhs`/`amount` — the extractor emits a record whose
`percentage_of_portfolio` key was never set: the column is ignored, not parsed
into the percentage field as the claim asserts. -/
theorem percent_value_column_ignored_cex :
    extract_holding_from_row valueNetAssetsRow "Scheme X" "Equity" "2025-12-31"
        "Axis Mutual Fund" =
      some { amc_name := "Axis Mutual Fund", scheme_name := "Scheme X",
             instrument_type := "Equity", reporting_date := "2025-12-31",
             instrument_name := some "Reliance Industries Ltd",
             percentage_of_portfolio := none } := by
  decide

/-- C5 amended: in the column-mapping precedence, a column matching none of
the name/security, isin, industry/rating and quantity rules that satisfies the
OUTER market-value condition (`market`/`fair value`/`value`) but lacks the
`rs`/`lakhs`/`amount` conjunct is ignored entirely — even if it contains `%`
or `net assets`; only a column matching none of the outer rules and containing
`%` or `net assets` is parsed into `percentage_of_portfolio`. -/
theorem applyColumn_percent_precedence (h : Holding) (col v : String)
    (hname : nameColKeywords.any (fun k => strContains (strLower col) k) = false)
    (hisin : strContains (strLower col) "isin" = false)
    (hind : strContains (strLower col) "industry" = false)
    (hrat : strContains (strLower col) "rating" = false)
    (hqty : strContains (strLower col) "quantity" = false) :
    (marketOuterMatch (strLower col) = true → marketUnitMatch (strLower col) = false →
      applyColumn h col (Cell.val v) = h) ∧
    (marketOuterMatch (strLower col) = false →
      (strContains (strLower col) "%" || strContains (strLower col) "net assets") = true →
      applyColumn h col (Cell.val v) =
        { h with percentage_of_portfolio := some (parseDecimal? v) }) := by
  constructor <;> intro h1 h2 <;>
    simp [applyColumn, hname, hisin, hind, hrat, hqty, h1, h2]

/-- Witness for C5 amended: the column `value (% to net assets)` sets no field
at all, while the column `% to net assets` sets the percentage field. -/
theorem applyColumn_percent_precedence_witness :
    applyColumn demoHolding "value (% to net assets)" (Cell.val "4.2") = demoHolding ∧
    applyColumn demoHolding "% to net assets" (Cell.val "4.2") =
      { demoHolding with percentage_of_portfolio := some (parseDecimal? "4.2") } := by
  constructor
  · exact (applyColumn_percent_precedence demoHolding "value (% to net assets)" "4.2"
      (by decide) (by decide) (by decide) (by decide) (by decide)).1 (by decide) (by decide)
  · exact (applyColumn_percent_precedence demoHolding "% to net assets" "4.2"
      (by decide) (by decide) (by decide) (by decide) (by decide)).2 (by decide) (by decide)

/-- Helper: the header scan of the empty grid finds nothing. -/
theorem findHeaderRowAux_nil (fuel idx : Nat) : findHeaderRowAux fuel idx [] = none := by
  cases fuel <;> rfl

/-- Helper: a successful header scan returns the offset of the first row, among
the first `fuel` present rows, holding at least two header keywords. -/
theorem findHeaderRowAux_some_iff :
    ∀ (gs : Grid) (fuel idx i : Nat),
      findHeaderRowAux fuel idx gs = some i ↔
      ∃ k, i = idx + k ∧ k < fuel ∧ k < gs.length ∧
        2 ≤ headerKeywordCount (gs.getD k []) ∧
        ∀ j < k, headerKeywordCount (gs.getD j []) < 2 := by
  intro gs
  induction gs with
  | nil =>
    intro fuel idx i
    rw [findHeaderRowAux_nil]
    simp
  | cons r rs ih =>
    intro fuel idx i
    cases fuel with
    | zero => simp [findHeaderRowAux]
    | succ f =>
      simp only [findHeaderRowAux]
      by_cases hr : 2 ≤ headerKeywordCount r
      · rw [if_pos hr]
        constructor
        · intro hsome
          have hidx : idx = i := by injection hsome
          refine ⟨0, by omega, by omega, by simp, ?_,
            fun j hj => absurd hj (Nat.not_lt_zero j)⟩
          rw [List.getD_cons_zero]
          exact hr
        · rintro ⟨k, hik, hkf, hkl, hk, hmin⟩
          have hk0 : k = 0 := by
            by_contra hne
            have h0 := hmin 0 (Nat.pos_of_ne_zero hne)
            rw [List.getD_cons_zero] at h0
            omega
          subst hk0
          simp only [Option.some.injEq]
          omega
      · rw [if_neg hr]
        rw [ih f (idx + 1) i]
        constructor
        · rintro ⟨k, hik, hkf, hkl, hk, hmin⟩
          refine ⟨k + 1, by omega, by omega, by simp; omega, by simpa using hk, ?_⟩
          intro j hj
          cases j with
          | zero =>
            rw [List.getD_cons_zero]
            omega
          | succ j2 =>
            rw [List.getD_cons_succ]
            exact hmin j2 (by omega)
        · rintro ⟨k, hik, hkf, hkl, hk, hmin⟩
          cases k with
          | zero =>
            exfalso
            rw [List.getD_cons_zero] at hk
            omega
          | succ k2 =>
            rw [List.getD_cons_succ] at hk
            refine ⟨k2, by omega, by omega, by simp at hkl; omega, hk, ?_⟩
            intro j hj
            have := hmin (j + 1) (by omega)
            rwa [List.getD_cons_succ] at this


/-- Helper: a failed header scan means every present row in the window holds
fewer than two header keywords. -/
theorem findHeaderRowAux_none_iff :
    ∀ (gs : Grid) (fuel idx : Nat),
      findHeaderRowAux fuel idx gs = none ↔
      ∀ k, k < fuel → k < gs.length → headerKeywordCount (gs.getD k []) < 2 := by
  intro gs
  induction gs with
  | nil =>
    intro fuel idx
    rw [findHeaderRowAux_nil]
    simp
  | cons r rs ih =>
    intro fuel idx
    cases fuel with
    | zero => simp [findHeaderRowAux]
    | succ f =>
      simp only [findHeaderRowAux]
      by_cases hr : 2 ≤ headerKeywordCount r
      · rw [if_pos hr]
        constructor
        · intro h
          cases h
        · intro hall
          have h0 := hall 0 (by omega) (by simp)
          rw [List.getD_cons_zero] at h0
          omega
      · rw [if_neg hr]
        rw [ih f (idx + 1)]
        constructor
        · intro hall k hkf hkl
          cases k with
          | zero =>
            rw [List.getD_cons_zero]
            omega
          | succ k2 =>
            rw [List.getD_cons_succ]
            exact hall k2 (by omega) (by simp at hkl; omega)
        · intro hall k hkf hkl
          have := hall (k + 1) (by omega) (by simp; omega)
          rwa [List.getD_cons_succ] at this

/-- C2: `find_header_row` returns the smallest row index `i` with
`i < min 20 (number of rows)` whose joined non-empty-cell text contains at
least two distinct header keywords, and returns `none` exactly when no row in
that window does. -/
theorem find_header_row_spec (grid : Grid) :
    (∀ i, find_header_row grid = some i ↔
      (i < min 20 grid.length ∧ 2 ≤ headerKeywordCount (grid.getD i []) ∧
       ∀ j < i, headerKeywordCount (grid.getD j []) < 2)) ∧
    (find_header_row grid = none ↔
      ∀ i < min 20 grid.length, headerKeywordCount (grid.getD i []) < 2) := by
  constructor
  · intro i
    unfold find_header_row
    rw [findHeaderRowAux_some_iff]
    constructor
    · rintro ⟨k, hik, hkf, hkl, hk, hmin⟩
      have : i = k := by omega
      subst this
      exact ⟨by omega, hk, hmin⟩
    · rintro ⟨hi, hk, hmin⟩
      exact ⟨i, by omega, by omega, by omega, hk, hmin⟩
  · unfold find_header_row
    rw [findHeaderRowAux_none_iff]
    constructor
    · intro h i hi
      exact h i (by omega) (by omega)
    · intro h k hkf hkl
      exact h k (by omega)

/-- Witness for C2: the demo grid's header is found at row 0, and a grid with
no keyword-bearing row yields none. -/
theorem find_header_row_spec_witness :
    find_header_row demoGrid = some 0 ∧ find_header_row noHeaderGrid = none := by
  refine ⟨((find_header_row_spec demoGrid).1 0).mpr
    ⟨by decide, by decide, fun j hj => absurd hj (Nat.not_lt_zero j)⟩,
    (find_header_row_spec noHeaderGrid).2.mpr (by decide)⟩

/-- Helper: the column dispatch never changes the scheme name. -/
theorem applyColumn_scheme_name (h : Holding) (c : String) (v : Cell) :
    (applyColumn h c v).scheme_name = h.scheme_name := by
  cases v with
  | empty => rfl
  | val s =>
    unfold applyColumn
    dsimp only
    repeat' split
    all_goals rfl

/-- Helper: the column-dispatch fold never changes the scheme name. -/
theorem foldl_applyColumn_scheme_name (row : List (String × Cell)) (h : Holding) :
    (row.foldl (fun acc p => applyColumn acc p.1 p.2) h).scheme_name = h.scheme_name := by
  induction row generalizing h with
  | nil => rfl
  | cons p ps ih => rw [List.foldl_cons, ih, applyColumn_scheme_name]

/-- Helper: a record passing the post-construction filter is returned
unchanged and satisfies the instrument-name invariant. -/
theorem holdingFilter_inv (g h : Holding) (heq : holdingFilter g = some h) :
    h = g ∧ ∃ nm, h.instrument_name = some nm ∧ nm ≠ "" ∧ 3 < (strTrim nm).length ∧
      ∀ k ∈ noiseKeywords, strContains (strLower nm) k = false := by
  unfold holdingFilter at heq
  cases hn : g.instrument_name with
  | none =>
    rw [hn] at heq
    dsimp only at heq
    cases heq
  | some nm =>
    rw [hn] at heq
    dsimp only at heq
    by_cases h1 : nm ≠ ""
    · rw [if_pos h1] at heq
      by_cases h2 : (!(noiseKeywords.any fun k => strContains (strLower nm) k)) = true
      · rw [if_pos h2] at heq
        by_cases h3 : 3 < (strTrim nm).length
        · rw [if_pos h3] at heq
          have hgh : g = h := by injection heq
          subst hgh
          refine ⟨rfl, nm, hn, h1, h3, ?_⟩
          intro k hk
          have hb : (noiseKeywords.any fun k => strContains (strLower nm) k) = false := by
            simpa using h2
          have h2f := List.any_eq_false.mp hb k hk
          simpa using h2f
        · rw [if_neg h3] at heq
          cases heq
      · rw [if_neg h2] at heq
        cases heq
    · rw [if_neg h1] at heq
      cases heq

/-- Helper: a record emitted by the row extractor carries the given scheme
name and satisfies the instrument-name invariant. -/
theorem extract_holding_inv (row : List (String × Cell)) (sn ty rd amc : String)
    (h : Holding) (he : extract_holding_from_row row sn ty rd amc = some h) :
    h.scheme_name = sn ∧ ∃ nm, h.instrument_name = some nm ∧ nm ≠ "" ∧
      3 < (strTrim nm).length ∧
      ∀ k ∈ noiseKeywords, strContains (strLower nm) k = false := by
  unfold extract_holding_from_row at he
  split at he
  · cases he
  · obtain ⟨hhg, nm, hnm, h1, h3, h4⟩ := holdingFilter_inv _ _ he
    subst hhg
    exact ⟨foldl_applyColumn_scheme_name row _, nm, hnm, h1, h3, h4⟩

/-- Helper: every record produced by the row-streaming loop came from some
call of the row extractor with the given scheme name. -/
theorem processRows_mem (sn rd amc : String) :
    ∀ (rows : List (List (String × Cell))) (cur : String) (h : Holding),
      h ∈ processRows sn rd amc rows cur →
      ∃ row ty, extract_holding_from_row row sn ty rd amc = some h := by
  intro rows
  induction rows with
  | nil => intro cur h hm; cases hm
  | cons r rs ih =>
    intro cur h hm
    rw [processRows] at hm
    split at hm
    · exact ih _ h hm
    · cases hext : extract_holding_from_row r sn cur rd amc with
      | some g =>
        rw [hext] at hm
        rcases List.mem_cons.mp hm with hg | hm2
        · exact ⟨r, cur, by rw [hext, hg]⟩
        · exact ih _ h hm2
      | none =>
        rw [hext] at hm
        exact ih _ h hm

/-- Helper: every record extracted from one sheet carries that sheet's name
and satisfies the instrument-name invariant. -/
theorem extract_sheet_inv (sheet : Except String Grid) (sn amc : String) (h : Holding)
    (hm : h ∈ extract_holdings_from_sheet sheet sn amc) :
    h.scheme_name = sn ∧ ∃ nm, h.instrument_name = some nm ∧ nm ≠ "" ∧
      3 < (strTrim nm).length ∧
      ∀ k ∈ noiseKeywords, strContains (strLower nm) k = false := by
  unfold extract_holdings_from_sheet at hm
  cases sheet with
  | error e => cases hm
  | ok grid =>
    dsimp only at hm
    cases hidx : find_header_row grid with
    | none =>
      rw [hidx] at hm
      cases hm
    | some i =>
      rw [hidx] at hm
      obtain ⟨row, ty, hext⟩ := processRows_mem sn (find_reporting_date grid) amc _ _ h hm
      exact extract_holding_inv _ _ _ _ _ _ hext

/-- Helper: the per-sheet fold of the consolidator is the concatenation of the
per-sheet extractions. -/
theorem foldl_append_holdings (f : (String × Except String Grid) → List Holding) :
    ∀ (l : List (String × Except String Grid)) (init : List Holding),
      l.foldl (fun acc p => acc ++ f p) init = init ++ (l.map f).flatten := by
  intro l
  induction l with
  | nil => intro init; simp
  | cons p ps ih =>
    intro init
    rw [List.foldl_cons, ih]
    simp

/-- Helper: every consolidated record came from extracting one of the
workbook's sheets. -/
theorem parse_excel_mem (amc : String) (sheets : List (String × Except String Grid))
    (h : Holding) (hm : h ∈ parse_excel_portfolios amc sheets) :
    ∃ p ∈ sheets, h ∈ extract_holdings_from_sheet p.2 p.1 amc := by
  unfold parse_excel_portfolios at hm
  rw [foldl_append_holdings] at hm
  simp only [List.nil_append, List.mem_flatten, List.mem_map] at hm
  obtain ⟨l, ⟨p, hp, hfp⟩, hml⟩ := hm
  subst hfp
  exact ⟨p, (List.mem_filter.mp hp).1, hml⟩

/-- C1: every record in the consolidated dataset produced by the workbook
consolidator carries the scheme name of one of the workbook's sheets and an
instrument name that is set, non-empty, longer than 3 characters when
stripped, and whose case-folded text contains none of the noise keywords —
for every input workbook. -/
theorem consolidated_dataset_invariant (amc : String)
    (sheets : List (String × Except String Grid)) (h : Holding)
    (hmem : h ∈ parse_excel_portfolios amc sheets) :
    (∃ p ∈ sheets, h.scheme_name = p.1) ∧
    ∃ nm, h.instrument_name = some nm ∧ nm ≠ "" ∧ 3 < (strTrim nm).length ∧
      ∀ k ∈ noiseKeywords, strContains (strLower nm) k = false := by
  obtain ⟨p, hp, hsheet⟩ := parse_excel_mem amc sheets h hmem
  obtain ⟨hsn, hinv⟩ := extract_sheet_inv p.2 p.1 amc h hsheet
  exact ⟨⟨p, hp, hsn⟩, hinv⟩

/-- Witness for C1: the record extracted from the demo workbook satisfies the
invariant. -/
theorem consolidated_dataset_invariant_witness :
    demoHolding ∈ parse_excel_portfolios "AMC" demoWorkbook ∧
    ((∃ p ∈ demoWorkbook, demoHolding.scheme_name = p.1) ∧
     ∃ nm, demoHolding.instrument_name = some nm ∧ nm ≠ "" ∧
       3 < (strTrim nm).length ∧
       ∀ k ∈ noiseKeywords, strContains (strLower nm) k = false) :=
  ⟨by decide, consolidated_dataset_invariant "AMC" demoWorkbook demoHolding (by decide)⟩

/-- Helper: a sheet producing no holdings contributes nothing wherever it
sits in the workbook. -/
theorem parse_middle_empty (amc nm : String) (sh : Except String Grid)
    (pre post : List (String × Except String Grid))
    (hempty : extract_holdings_from_sheet sh nm amc = []) :
    parse_excel_portfolios amc (pre ++ (nm, sh) :: post) =
      parse_excel_portfolios amc (pre ++ post) := by
  unfold parse_excel_portfolios
  rw [foldl_append_holdings, foldl_append_holdings]
  rw [List.filter_append, List.filter_append, List.filter_cons]
  by_cases hk : keepSheet (nm, sh).1
  · simp [hk, hempty]
  · simp [hk]

/-- C7: per-sheet failure isolation — a sheet whose processing raises
(modelled as an errored sheet read) contributes zero records, a sheet with no
identifiable header row contributes zero records, and in both cases
consolidating the workbook equals consolidating it with the failing sheet
removed, so the remaining sheets' records are unaffected. -/
theorem sheet_failure_isolation (amc nm err : String)
    (pre post : List (String × Except String Grid)) :
    extract_holdings_from_sheet (Except.error err) nm amc = [] ∧
    parse_excel_portfolios amc (pre ++ (nm, Except.error err) :: post) =
      parse_excel_portfolios amc (pre ++ post) ∧
    ∀ grid : Grid, find_header_row grid = none →
      extract_holdings_from_sheet (Except.ok grid) nm amc = [] ∧
      parse_excel_portfolios amc (pre ++ (nm, Except.ok grid) :: post) =
        parse_excel_portfolios amc (pre ++ post) := by
  have herr : extract_holdings_from_sheet (Except.error err) nm amc = [] := rfl
  refine ⟨herr, parse_middle_empty _ _ _ _ _ herr, ?_⟩
  intro grid hg
  have hok : extract_holdings_from_sheet (Except.ok grid) nm amc = [] := by
    unfold extract_holdings_from_sheet
    dsimp only
    rw [hg]
  exact ⟨hok, parse_middle_empty _ _ _ _ _ hok⟩

/-- Witness for C7: appending an erroring sheet to the demo workbook leaves
its consolidation unchanged, and a sheet whose grid has no header row yields
zero records. -/
theorem sheet_failure_isolation_witness :
    parse_excel_portfolios "AMC" (demoWorkbook ++ ("Bad", Except.error "boom") :: []) =
      parse_excel_portfolios "AMC" (demoWorkbook ++ []) ∧
    extract_holdings_from_sheet (Except.ok noHeaderGrid) "Bad" "AMC" = [] := by
  have h := sheet_failure_isolation "AMC" "Bad" "boom" demoWorkbook []
  exact ⟨h.2.1, (h.2.2 noHeaderGrid (by decide)).1⟩

end MF
